import Mathlib

/-!
Shallow embedding of the SWRC task-tracker core: the zod request validators
(`schema.ts`), the transactional create-request persistence and the
status-update workflow with history logging (`server.ts`).

Conventions of the embedding:
* JSON field values arriving at a zod schema are modelled by `RawVal`
  (`absent` = key missing / `undefined`).  Numeric payloads are restricted to
  integers: zod's `.int()` accepts exactly the integral numbers and no claim
  involves fractional numerics.
* zod parsing is `Except (List String) α`: on failure the list collects the
  paths of every violated field (zod reports all issues, not only the first).
  The human-readable message texts attached to each issue are not modelled.
* A JavaScript `Date` is a local calendar day index plus the milliseconds
  elapsed within that day; `toMySqlDateTime`'s rendering of a date into a
  `"YYYY-MM-DD HH:mm:ss"` string is not modelled — timestamps are stored as
  the underlying values.
* `z.coerce.date()` applied to a string (ISO date-string parsing) is not
  modelled; date-typed input is passed through, as in every claim.
-/

namespace SWRC

/-- A JavaScript `Date`: local calendar day index and milliseconds within
that day.  `setHours(0,0,0,0)` zeroes the within-day part. -/
structure JsDate where
  day : Int
  msInDay : Nat
deriving DecidableEq, Repr

/-- The millisecond value of a date; JS `Date` comparison compares these. -/
def JsDate.toMillis (d : JsDate) : Int := d.day * 86400000 + (d.msInDay : Int)

/-- Models `d.setHours(0, 0, 0, 0)`. -/
def JsDate.atMidnight (d : JsDate) : JsDate := { d with msInDay := 0 }

/-- An untyped JSON field value as a zod schema receives it. -/
inductive RawVal where
  | absent
  | null
  | str (s : String)
  | num (n : Int)
  | bool (b : Bool)
  | date (d : JsDate)
deriving DecidableEq, Repr

/-- Models `z.enum(["P1","P2","P3"])`. -/
inductive Priority where
  | p1
  | p2
  | p3
deriving DecidableEq, Repr

/-- Models `statusEnum = z.enum(["New","In Progress","Completed","Issue"])`. -/
inductive Status where
  | new
  | inProgress
  | completed
  | issue
deriving DecidableEq, Repr

/-- Models `z.enum(["Domestic", "International"])`. -/
inductive DomInt where
  | domestic
  | international
deriving DecidableEq, Repr

/-- The three request kinds whose schemas carry a `lots` array. -/
inductive LotKind where
  | lotTransfer
  | shipment
  | scrap
deriving DecidableEq, Repr

/-- The `request_type` literal stored for a lot-carrying kind. -/
def LotKind.toStr : LotKind → String
  | .lotTransfer => "Lot Transfer"
  | .shipment => "Shipment Request"
  | .scrap => "Scrap Request"

deriving instance DecidableEq for Except

/-- Result of parsing one field or one whole schema: either the value or the
paths of all violated fields. -/
abbrev PResult (α : Type) := Except (List String) α

/-- Combine two sub-parses the way a zod object does: succeed only when both
succeed, and concatenate the issue lists when either fails. -/
def zAnd {α β : Type} : PResult α → PResult β → PResult (α × β)
  | .ok a, .ok b => .ok (a, b)
  | .error e, .ok _ => .error e
  | .ok _, .error f => .error f
  | .error e, .error f => .error (e ++ f)

/-- Models `z.string().min(1)`. -/
def zNonEmptyString (path : String) : RawVal → PResult String
  | .str s => if 1 ≤ s.length then .ok s else .error [path]
  | _ => .error [path]

/-- Models `z.string().optional().nullable()`: `undefined`, `null`, or any string
(the empty string included — there is no `.min(1)` here). -/
def zOptNullString (path : String) : RawVal → PResult (Option (Option String))
  | .absent => .ok none
  | .null => .ok (some none)
  | .str s => .ok (some (some s))
  | _ => .error [path]

/-- Models `z.string().min(1).optional().nullable()` (the `executor` field). -/
def zOptNullNonEmptyString (path : String) : RawVal → PResult (Option (Option String))
  | .absent => .ok none
  | .null => .ok (some none)
  | .str s => if 1 ≤ s.length then .ok (some (some s)) else .error [path]
  | _ => .error [path]

/-- Models `z.boolean().optional().nullable()`. -/
def zOptNullBool (path : String) : RawVal → PResult (Option (Option Bool))
  | .absent => .ok none
  | .null => .ok (some none)
  | .bool b => .ok (some (some b))
  | _ => .error [path]

/-- Models `z.enum(["P1","P2","P3"])`. -/
def zPriority (path : String) : RawVal → PResult Priority
  | .str "P1" => .ok .p1
  | .str "P2" => .ok .p2
  | .str "P3" => .ok .p3
  | _ => .error [path]

/-- Models `statusEnum`. -/
def zStatus (path : String) : RawVal → PResult Status
  | .str "New" => .ok .new
  | .str "In Progress" => .ok .inProgress
  | .str "Completed" => .ok .completed
  | .str "Issue" => .ok .issue
  | _ => .error [path]

/-- Models `z.enum(["Domestic", "International"]).optional().nullable()`. -/
def zOptNullDomInt (path : String) : RawVal → PResult (Option (Option DomInt))
  | .absent => .ok none
  | .null => .ok (some none)
  | .str "Domestic" => .ok (some (some .domestic))
  | .str "International" => .ok (some (some .international))
  | _ => .error [path]

/-- Models `z.coerce.date()` restricted to date-typed input (string parsing is not
modelled; non-dates fail as unparseable dates do). -/
def zCoerceDate (path : String) : RawVal → PResult JsDate
  | .date d => .ok d
  | _ => .error [path]

/-- Models `z.number().int().nonnegative().nullable().optional()` (the
`unitsQuantity` field of the union's `lotSchema`): a plain number, `null`,
or `undefined`; strings are not coerced here. -/
def zOptNullNonNegInt (path : String) : RawVal → PResult (Option (Option Int))
  | .absent => .ok none
  | .null => .ok (some none)
  | .num n => if 0 ≤ n then .ok (some (some n)) else .error [path]
  | _ => .error [path]

/-- Models `z.number().int().positive()` (the `unitQuantity` field of
`samplingLotSchema`). -/
def zPosInt (path : String) : RawVal → PResult Int
  | .num n => if 1 ≤ n then .ok n else .error [path]
  | _ => .error [path]

/-- The characters of a string with leading and trailing whitespace
removed. -/
def trimChars (cs : List Char) : List Char :=
  ((cs.dropWhile Char.isWhitespace).reverse.dropWhile Char.isWhitespace).reverse

/-- JS `String.prototype.trim()`. -/
def jsTrim (s : String) : String := ⟨trimChars s.data⟩

/-- The value of a decimal digit character. -/
def digit? (c : Char) : Option Nat :=
  if 48 ≤ c.toNat ∧ c.toNat ≤ 57 then some (c.toNat - 48) else none

/-- Read a digit run as a natural number; any non-digit fails. -/
def decNatAux : List Char → Nat → Option Nat
  | [], acc => some acc
  | c :: cs, acc =>
    match digit? c with
    | some d => decNatAux cs (acc * 10 + d)
    | none => none

/-- Read an optionally signed decimal integer; anything else fails. -/
def decInt? : List Char → Option Int
  | [] => none
  | '-' :: cs => if cs.isEmpty then none else (decNatAux cs 0).map (fun n => -(n : Int))
  | '+' :: cs => if cs.isEmpty then none else (decNatAux cs 0).map (fun n => (n : Int))
  | cs => (decNatAux cs 0).map (fun n => (n : Int))

/-- JS `Number()` on the value shapes we model, restricted to integral
results: `Number(undefined)` is `NaN` (failure), `Number(null) = 0`,
booleans map to 0/1, and a string is trimmed and read as a signed decimal
integer (`Number("") = 0`; a non-numeric string gives `NaN`, hence
failure; a fractional or non-decimal numeric string is conflated with the
`.int()` failure that follows). -/
def jsNumber : RawVal → Option Int
  | .absent => none
  | .null => some 0
  | .bool b => some (if b then 1 else 0)
  | .num n => some n
  | .str s => if (jsTrim s).data.isEmpty then some 0 else decInt? (jsTrim s).data
  | .date _ => none

/-- Models `z.coerce.number().int().nonnegative()` (the legacy `lotSchema` of
`src/schema.ts`). -/
def zCoerceNonNegInt (path : String) (v : RawVal) : PResult Int :=
  match jsNumber v with
  | some n => if 0 ≤ n then .ok n else .error [path]
  | none => .error [path]

/-- Models `z.string().optional()` (no `.nullable()`): `undefined` or a string. -/
def zOptString (path : String) : RawVal → PResult (Option String)
  | .absent => .ok none
  | .str s => .ok (some s)
  | _ => .error [path]

/-- The `qrDate` rule of `samplingRequestSchema`: coerce to a date, then
`refine(d => { const t = new Date(); t.setHours(0,0,0,0); const q = new
Date(d); q.setHours(0,0,0,0); return q >= t; })`.  `clock` is the value of
`new Date()` at parse time. -/
def qrDateInRange (clock d : JsDate) : Bool :=
  decide (d.atMidnight.toMillis ≥ clock.atMidnight.toMillis)

/-- The `qrDate` field parse of `samplingRequestSchema`. -/
def zQrDate (clock : JsDate) (path : String) (v : RawVal) : PResult JsDate :=
  match zCoerceDate path v with
  | .ok d => if qrDateInRange clock d then .ok d else .error [path]
  | .error e => .error e

/-- One raw element of a `lots` array. -/
structure RawLot where
  lotId : RawVal
  unitsQuantity : RawVal
  serialNumber : RawVal
deriving DecidableEq, Repr

/-- One raw element of a `samplingLots` array. -/
structure RawSamplingLot where
  lotId : RawVal
  unitQuantity : RawVal
  reliabilityTest : RawVal
  testCondition : RawVal
  attributeToTag : RawVal
deriving DecidableEq, Repr

/-- The untyped JSON body of a create-request call, field by field
(`none` for the array fields = key missing). -/
structure RawPayload where
  username : RawVal
  requestType : RawVal
  taskPriority : RawVal
  dateOfRequest : RawVal
  facilityLocation : RawVal
  receiverName : RawVal
  qawrNumber : RawVal
  jiraLink : RawVal
  lotLocation : RawVal
  attentionTo : RawVal
  returnable : RawVal
  domesticInternational : RawVal
  shippingAddress : RawVal
  samplingType : RawVal
  qrDate : RawVal
  projectName : RawVal
  lots : Option (List RawLot)
  samplingLots : Option (List RawSamplingLot)
deriving DecidableEq, Repr

/-- A parsed element of `lots` (the union's `lotSchema`): `unitsQuantity`
and `serialNumber` keep the `undefined` / `null` / value distinction. -/
structure LotData where
  lotId : String
  unitsQuantity : Option (Option Int)
  serialNumber : Option (Option String)
deriving DecidableEq, Repr

/-- A parsed element of `samplingLots` (`samplingLotSchema`). -/
structure SamplingLotData where
  lotId : String
  unitQuantity : Int
  reliabilityTest : String
  testCondition : String
  attributeToTag : String
deriving DecidableEq, Repr

/-- The parsed shared fields (`baseRequest`). -/
structure BaseData where
  username : String
  taskPriority : Priority
  dateOfRequest : JsDate
  facilityLocation : Option (Option String)
  receiverName : Option (Option String)
  qawrNumber : Option (Option String)
  jiraLink : Option (Option String)
  lotLocation : Option (Option String)
  attentionTo : Option (Option String)
  returnable : Option (Option Bool)
  domesticInternational : Option (Option DomInt)
  shippingAddress : Option (Option String)
deriving DecidableEq, Repr

/-- A validated create-request payload: one of the four variants of the
discriminated union (the three lot-carrying kinds share a shape). -/
inductive RequestData where
  | lotsKind (kind : LotKind) (base : BaseData) (lots : List LotData)
  | sampling (base : BaseData) (samplingType : String) (qrDate : JsDate)
      (projectName : String) (samplingLots : List SamplingLotData)
deriving DecidableEq, Repr

/-- The parsed body of a status-update call
(`requestStatusUpdateSchema`). -/
structure StatusUpdateData where
  status : Status
  executor : Option (Option String)
  note : Option (Option String)
deriving DecidableEq, Repr

/-- Models `lotSchema` of the discriminated union (`schema.ts` append): non-empty
`lotId`, optional nullable non-negative integer quantity (no string
coercion), optional nullable serial number. -/
def lotSchema (l : RawLot) : PResult LotData :=
  match zAnd (zNonEmptyString "lotId" l.lotId)
        (zAnd (zOptNullNonNegInt "unitsQuantity" l.unitsQuantity)
              (zOptNullString "serialNumber" l.serialNumber)) with
  | .ok (i, q, sn) => .ok ⟨i, q, sn⟩
  | .error e => .error e

/-- Models `samplingLotSchema`: all four descriptors non-empty, strictly positive
integer `unitQuantity` (no string coercion). -/
def samplingLotSchema (l : RawSamplingLot) : PResult SamplingLotData :=
  match zAnd (zNonEmptyString "lotId" l.lotId)
        (zAnd (zPosInt "unitQuantity" l.unitQuantity)
        (zAnd (zNonEmptyString "reliabilityTest" l.reliabilityTest)
        (zAnd (zNonEmptyString "testCondition" l.testCondition)
              (zNonEmptyString "attributeToTag" l.attributeToTag)))) with
  | .ok (i, q, rt, tc, att) => .ok ⟨i, q, rt, tc, att⟩
  | .error e => .error e

/-- Parse every element of an array, concatenating the issues of all
failing elements, as zod does for `z.array(...)`. -/
def zList {α β : Type} (f : α → PResult β) : List α → PResult (List β)
  | [] => .ok []
  | x :: xs =>
    match zAnd (f x) (zList f xs) with
    | .ok (b, bs) => .ok (b :: bs)
    | .error e => .error e

/-- Models `z.array(elt).min(1)` on a field that may be missing: a missing key or
an empty array is a violation of the field itself. -/
def zArrayMin1 {α β : Type} (path : String) (f : α → PResult β) :
    Option (List α) → PResult (List β)
  | none => .error [path]
  | some [] => .error [path]
  | some xs => zList f xs

/-- The shared `baseRequest` object parse. -/
def baseRequest (p : RawPayload) : PResult BaseData :=
  match zAnd (zNonEmptyString "username" p.username)
        (zAnd (zPriority "taskPriority" p.taskPriority)
        (zAnd (zCoerceDate "dateOfRequest" p.dateOfRequest)
        (zAnd (zOptNullString "facilityLocation" p.facilityLocation)
        (zAnd (zOptNullString "receiverName" p.receiverName)
        (zAnd (zOptNullString "qawrNumber" p.qawrNumber)
        (zAnd (zOptNullString "jiraLink" p.jiraLink)
        (zAnd (zOptNullString "lotLocation" p.lotLocation)
        (zAnd (zOptNullString "attentionTo" p.attentionTo)
        (zAnd (zOptNullBool "returnable" p.returnable)
        (zAnd (zOptNullDomInt "domesticInternational" p.domesticInternational)
              (zOptNullString "shippingAddress" p.shippingAddress))))))))))) with
  | .ok (u, pr, d, fl, rn, qn, jl, ll, att, ret, di, sa) =>
    .ok ⟨u, pr, d, fl, rn, qn, jl, ll, att, ret, di, sa⟩
  | .error e => .error e

/-- The discriminated union `requestSchema` (`schema.ts` append), i.e. what
`requestSchema.safeParse(req.body)` computes.  `clock` is the parse-time
`new Date()` used by the `qrDate` refinement.  An unrecognized or missing
discriminator is a single issue on `requestType`. -/
def requestSchema (clock : JsDate) (p : RawPayload) : PResult RequestData :=
  match p.requestType with
  | .str "Lot Transfer" =>
    match zAnd (baseRequest p) (zArrayMin1 "lots" lotSchema p.lots) with
    | .ok (b, ls) => .ok (.lotsKind .lotTransfer b ls)
    | .error e => .error e
  | .str "Shipment Request" =>
    match zAnd (baseRequest p) (zArrayMin1 "lots" lotSchema p.lots) with
    | .ok (b, ls) => .ok (.lotsKind .shipment b ls)
    | .error e => .error e
  | .str "Scrap Request" =>
    match zAnd (baseRequest p) (zArrayMin1 "lots" lotSchema p.lots) with
    | .ok (b, ls) => .ok (.lotsKind .scrap b ls)
    | .error e => .error e
  | .str "Sampling Request" =>
    match zAnd (baseRequest p)
          (zAnd (zNonEmptyString "samplingType" p.samplingType)
          (zAnd (zQrDate clock "qrDate" p.qrDate)
          (zAnd (zNonEmptyString "projectName" p.projectName)
                (zArrayMin1 "samplingLots" samplingLotSchema p.samplingLots)))) with
    | .ok (b, st, qd, pn, sls) => .ok (.sampling b st qd pn sls)
    | .error e => .error e
  | _ => .error ["requestType"]

/-- A parsed element of the legacy `lotSchema` (`src/schema.ts`), whose
quantity is `z.coerce.number().int().nonnegative()` and whose serial number
is `z.string().optional()`. -/
structure LegacyLotData where
  lotId : String
  unitsQuantity : Int
  serialNumber : Option String
deriving DecidableEq, Repr

/-- The legacy `lotSchema` of `src/schema.ts` (string quantities are
coerced via `Number()`). -/
def lotSchemaLegacy (l : RawLot) : PResult LegacyLotData :=
  match zAnd (zNonEmptyString "lotId" l.lotId)
        (zAnd (zCoerceNonNegInt "unitsQuantity" l.unitsQuantity)
              (zOptString "serialNumber" l.serialNumber)) with
  | .ok (i, q, sn) => .ok ⟨i, q, sn⟩
  | .error e => .error e

/-- The untyped JSON body of a status-update call. -/
structure RawStatusBody where
  status : RawVal
  executor : RawVal
  note : RawVal
deriving DecidableEq, Repr

/-- Models `requestStatusUpdateSchema`: a status from the enum, an optional
nullable non-empty executor, an optional nullable note. -/
def requestStatusUpdateSchema (b : RawStatusBody) : PResult StatusUpdateData :=
  match zAnd (zStatus "status" b.status)
        (zAnd (zOptNullNonEmptyString "executor" b.executor)
              (zOptNullString "note" b.note)) with
  | .ok (st, ex, nt) => .ok ⟨st, ex, nt⟩
  | .error e => .error e

/-- JS `x ?? null` on a parsed optional-nullable field: both `undefined`
and `null` collapse to the stored `NULL`. -/
def flat {α : Type} : Option (Option α) → Option α
  | some (some a) => some a
  | _ => none

/-- A row of the `requests` table.  Timestamp columns (`created_at`,
`updated_at`, `started_at`, `completed_at`) hold abstract instants
(`Nat`); the `DATETIME` string rendering is not modelled. -/
structure RequestRow where
  id : Nat
  username : String
  requestType : String
  taskPriority : Priority
  dateOfRequest : JsDate
  facilityLocation : Option String
  receiverName : Option String
  qawrNumber : Option String
  jiraLink : Option String
  lotLocation : Option String
  attentionTo : Option String
  returnable : Option Bool
  domesticInternational : Option DomInt
  shippingAddress : Option String
  samplingType : Option String
  qrDate : Option JsDate
  projectName : Option String
  status : Status
  executor : Option String
  issueNote : Option String
  startedAt : Option Nat
  completedAt : Option Nat
  createdAt : Nat
  updatedAt : Nat
deriving DecidableEq, Repr

/-- A row of the `lots` table. -/
structure LotRow where
  requestId : Nat
  lotId : String
  unitsQuantity : Option Int
  serialNumber : Option String
deriving DecidableEq, Repr

/-- A row of the `sampling_lots` table. -/
structure SamplingLotRow where
  requestId : Nat
  lotId : String
  unitQuantity : Int
  reliabilityTest : String
  testCondition : String
  attributeToTag : String
deriving DecidableEq, Repr

/-- A row of the `request_status_history` table. -/
structure HistoryRow where
  requestId : Nat
  oldStatus : Option Status
  newStatus : Status
  executor : Option String
  note : Option String
deriving DecidableEq, Repr

/-- The relational store: the four tables plus the auto-increment counter
of `requests`. -/
structure Store where
  requests : List RequestRow
  lots : List LotRow
  samplingLots : List SamplingLotRow
  history : List HistoryRow
  nextId : Nat
deriving DecidableEq, Repr

/-- The query `SELECT ... FROM requests WHERE id = ?` (first matching row). -/
def Store.requestById (s : Store) (id : Nat) : Option RequestRow :=
  s.requests.find? (fun r => r.id == id)

/-- All `lots` rows referencing a request. -/
def Store.lotsFor (s : Store) (id : Nat) : List LotRow :=
  s.lots.filter (fun l => l.requestId == id)

/-- All `sampling_lots` rows referencing a request. -/
def Store.samplingLotsFor (s : Store) (id : Nat) : List SamplingLotRow :=
  s.samplingLots.filter (fun l => l.requestId == id)

/-- The auto-increment counter is fresh: no existing row references an id
at or above it. -/
def Store.Fresh (s : Store) : Prop :=
  (∀ r ∈ s.requests, r.id < s.nextId) ∧
  (∀ l ∈ s.lots, l.requestId < s.nextId) ∧
  (∀ l ∈ s.samplingLots, l.requestId < s.nextId)

instance (s : Store) : Decidable s.Fresh := by
  unfold Store.Fresh
  exact inferInstance

/-- The base fields of a validated payload. -/
def RequestData.base : RequestData → BaseData
  | .lotsKind _ b _ => b
  | .sampling b _ _ _ _ => b

/-- The `request_type` literal a validated payload stores. -/
def RequestData.typeStr : RequestData → String
  | .lotsKind k _ _ => k.toStr
  | .sampling _ _ _ _ _ => "Sampling Request"

/-- The `requests` row built by the `INSERT INTO requests` of the create
handler: descriptive fields go through `?? null`, the three sampling
columns are populated only for a Sampling Request, `created_at` and
`updated_at` are `NOW()`, and the workflow columns take the store's
defaults (modelled from the spec: the DDL is not under `src/`, and the
spec fixes `New` as the implicitly assigned initial status and the other
workflow fields as unset). -/
def mkRequestRow (id : Nat) (d : RequestData) (now : Nat) : RequestRow where
  id := id
  username := d.base.username
  requestType := d.typeStr
  taskPriority := d.base.taskPriority
  dateOfRequest := d.base.dateOfRequest
  facilityLocation := flat d.base.facilityLocation
  receiverName := flat d.base.receiverName
  qawrNumber := flat d.base.qawrNumber
  jiraLink := flat d.base.jiraLink
  lotLocation := flat d.base.lotLocation
  attentionTo := flat d.base.attentionTo
  returnable := flat d.base.returnable
  domesticInternational := flat d.base.domesticInternational
  shippingAddress := flat d.base.shippingAddress
  samplingType := match d with
    | .sampling _ st _ _ _ => some st
    | _ => none
  qrDate := match d with
    | .sampling _ _ qd _ _ => some qd
    | _ => none
  projectName := match d with
    | .sampling _ _ _ pn _ => some pn
    | _ => none
  status := Status.new
  executor := none
  issueNote := none
  startedAt := none
  completedAt := none
  createdAt := now
  updatedAt := now

/-- The `lots` row built for one validated lot:
`[requestId, String(l.lotId).trim(), l.unitsQuantity ?? null,
l.serialNumber ?? null]`. -/
def mkLotRow (id : Nat) (l : LotData) : LotRow where
  requestId := id
  lotId := jsTrim l.lotId
  unitsQuantity := flat l.unitsQuantity
  serialNumber := flat l.serialNumber

/-- The `sampling_lots` row built for one validated sampling lot (every
string field trimmed). -/
def mkSamplingLotRow (id : Nat) (l : SamplingLotData) : SamplingLotRow where
  requestId := id
  lotId := jsTrim l.lotId
  unitQuantity := l.unitQuantity
  reliabilityTest := jsTrim l.reliabilityTest
  testCondition := jsTrim l.testCondition
  attributeToTag := jsTrim l.attributeToTag

/-- The observable store effects of the create handler, in program order. -/
inductive Effect where
  | getConnection
  | beginTransaction
  | insertRequests
  | insertLots
  | insertSamplingLots
  | commit
  | rollback
  | release
deriving DecidableEq, Repr

/-- The store steps of the create handler's transactional unit at which a
fault can be injected. -/
inductive FaultStep where
  | insertRequests
  | insertLots
  | insertSamplingLots
  | commit
deriving DecidableEq, Repr

/-- An injected store fault: the step that throws and the underlying store
error message (logged by the handler, never echoed to the caller). -/
structure Fault where
  step : FaultStep
  message : String
deriving DecidableEq, Repr

/-- Whether the injected fault fires at a given step. -/
def faultAt (fault : Option Fault) (st : FaultStep) : Bool :=
  match fault with
  | some f => f.step == st
  | none => false

/-- The HTTP outcome of the create handler. -/
inductive CreateResp where
  | badRequest (issues : List String)
  | ok (id : Nat)
  | serverError (message : String)
deriving DecidableEq, Repr

/-- The effect trace of a rolled-back transactional unit. -/
def abortTrace : List Effect :=
  [.getConnection, .beginTransaction, .rollback, .release]

/-- The outcome of a rolled-back create: the snapshot restored, the generic
500 message of the `catch` block (the store error is logged, not echoed). -/
def abortResult (s : Store) : Store × CreateResp × List Effect :=
  (s, .serverError "Failed to save request", abortTrace)

/-- Models `app.post("/api/requests")` (`server.ts`): validate with
`requestSchema.safeParse` and answer 400 before any connection is taken;
otherwise run the parent insert and the matching bulk child insert inside
one transaction, commit, and answer the new id — any store fault rolls the
whole unit back (the working state below becomes visible only at commit)
and answers a generic 500.  `clock` is the parse-time `new Date()`, `now`
the instant stored by `NOW()`. -/
def createRequest (clock : JsDate) (now : Nat) (p : RawPayload)
    (fault : Option Fault) (s : Store) : Store × CreateResp × List Effect :=
  match requestSchema clock p with
  | .error issues => (s, .badRequest issues, [])
  | .ok data =>
    if faultAt fault .insertRequests then
      abortResult s
    else
      let requestId := s.nextId
      let s1 : Store :=
        { s with
          requests := s.requests ++ [mkRequestRow requestId data now]
          nextId := s.nextId + 1 }
      match data with
      | .lotsKind _ _ ls =>
        -- `"lots" in data && Array.isArray(data.lots) && data.lots.length > 0`
        if 0 < ls.length then
          if faultAt fault .insertLots then
            abortResult s
          else
            let s2 := { s1 with lots := s1.lots ++ ls.map (mkLotRow requestId) }
            if faultAt fault .commit then
              abortResult s
            else
              (s2, .ok requestId,
               [.getConnection, .beginTransaction, .insertRequests, .insertLots,
                .commit, .release])
        else
          -- unreachable under the schema's min-1 rule; kept for the code's guard
          if faultAt fault .commit then
            abortResult s
          else
            (s1, .ok requestId,
             [.getConnection, .beginTransaction, .insertRequests, .commit, .release])
      | .sampling _ _ _ _ sls =>
        -- `data.requestType === "Sampling Request" && data.samplingLots?.length`
        if 0 < sls.length then
          if faultAt fault .insertSamplingLots then
            abortResult s
          else
            let s2 :=
              { s1 with samplingLots := s1.samplingLots ++ sls.map (mkSamplingLotRow requestId) }
            if faultAt fault .commit then
              abortResult s
            else
              (s2, .ok requestId,
               [.getConnection, .beginTransaction, .insertRequests,
                .insertSamplingLots, .commit, .release])
        else
          if faultAt fault .commit then
            abortResult s
          else
            (s1, .ok requestId,
             [.getConnection, .beginTransaction, .insertRequests, .commit, .release])

/-- The HTTP outcome of the status-update handler. -/
inductive UpdateResp where
  | badRequest
  | notFound
  | ok
  | serverError (message : String)
deriving DecidableEq, Repr

/-- The dynamic `UPDATE requests SET ...` of the status handler applied to
one row: always `status` and `updated_at`; `executor` only when the body
carried the key (`executor !== undefined`), set to `executor ?? null`;
`started_at = COALESCE(started_at, NOW)` only when the new status is
`In Progress`; `completed_at = COALESCE(completed_at, NOW)` only when
`Completed`; `issue_note = note ?? null` only when `Issue`. -/
def applyRowUpdate (row : RequestRow) (u : StatusUpdateData) (now : Nat) : RequestRow :=
  { row with
    status := u.status
    updatedAt := now
    executor := match u.executor with
      | none => row.executor
      | some v => v
    startedAt :=
      if u.status = Status.inProgress then some (row.startedAt.getD now)
      else row.startedAt
    completedAt :=
      if u.status = Status.completed then some (row.completedAt.getD now)
      else row.completedAt
    issueNote :=
      if u.status = Status.issue then flat u.note
      else row.issueNote }

/-- Models `app.patch("/api/requests/:id/status")` (`server.ts`): validate the
body (400 on failure, before any store access); inside one transaction
read the current status (404 + rollback when the id is unknown), apply the
dynamic row update, append one history row recording the status read at
the start, and commit — a store fault inside the unit rolls both halves
back and answers a generic 500.  (The route's `Number(req.params.id)`
format check is outside the model: `id` arrives as a number.) -/
def updateStatus (now : Nat) (id : Nat) (b : RawStatusBody)
    (fault : Option String) (s : Store) : Store × UpdateResp :=
  match requestStatusUpdateSchema b with
  | .error _ => (s, .badRequest)
  | .ok u =>
    match s.requestById id with
    | none => (s, .notFound)
    | some row =>
      match fault with
      | some _ => (s, .serverError "Failed to update status")
      | none =>
        ({ s with
           requests := s.requests.map (fun r => if r.id == id then applyRowUpdate r u now else r)
           history := s.history ++
             [{ requestId := id
                oldStatus := some row.status
                newStatus := u.status
                executor := flat u.executor
                note := flat u.note }] },
         .ok)

/-! ### Concrete fixtures used by witnesses and counterexamples -/

/-- A parse-time clock: some day, one hour past midnight. -/
def clockW : JsDate := ⟨20000, 3600000⟩

/-- The submission date of the fixture payloads. -/
def dateW : JsDate := ⟨20000, 0⟩

/-- A store with no rows. -/
def emptyStore : Store := ⟨[], [], [], [], 1⟩

/-- A valid Lot Transfer payload: submitter "alice", priority P1, one lot
`{lotId:"L1", unitsQuantity:5}`, every optional field absent. -/
def lotPayloadW : RawPayload where
  username := .str "alice"
  requestType := .str "Lot Transfer"
  taskPriority := .str "P1"
  dateOfRequest := .date dateW
  facilityLocation := .absent
  receiverName := .absent
  qawrNumber := .absent
  jiraLink := .absent
  lotLocation := .absent
  attentionTo := .absent
  returnable := .absent
  domesticInternational := .absent
  shippingAddress := .absent
  samplingType := .absent
  qrDate := .absent
  projectName := .absent
  lots := some [⟨.str "L1", .num 5, .absent⟩]
  samplingLots := none

/-- The parse of `lotPayloadW`, with its optional-field slot exposed. -/
def lotDataW (fl : Option (Option String)) : RequestData :=
  .lotsKind .lotTransfer
    ⟨"alice", .p1, dateW, fl, none, none, none, none, none, none, none, none⟩
    [⟨"L1", some (some 5), none⟩]

/-- The payload `lotPayloadW` with a chosen `facilityLocation` value. -/
def lotPayloadWith (v : RawVal) : RawPayload := { lotPayloadW with facilityLocation := v }

/-- A valid Sampling payload against `clockW`. -/
def samplingPayloadW : RawPayload :=
  { lotPayloadW with
    requestType := .str "Sampling Request"
    samplingType := .str "RELIABILITY"
    qrDate := .date ⟨20000, 50⟩
    projectName := .str "PROJ"
    lots := none
    samplingLots := some [⟨.str "S1", .num 3, .str "HTOL", .str "125C", .str "TAG"⟩] }

/-- A Lot Transfer payload whose only lot id is whitespace. -/
def wsPayload : RawPayload :=
  { lotPayloadW with lots := some [⟨.str "   ", .num 2, .null⟩] }

/-- The parse of `wsPayload`. -/
def wsData : RequestData :=
  .lotsKind .lotTransfer
    ⟨"alice", .p1, dateW, none, none, none, none, none, none, none, none, none⟩
    [⟨"   ", some (some 2), some none⟩]

/-- A stored request still in the initial state. -/
def scenRow : RequestRow := mkRequestRow 1 (lotDataW none) 0

/-- A store holding `scenRow` and an empty history. -/
def scenStore : Store := ⟨[scenRow], [], [], [], 2⟩

/-- A status body `{ status: "In Progress", executor: "bob" }`. -/
def bodyInProgress : RawStatusBody := ⟨.str "In Progress", .str "bob", .absent⟩

/-- A status body `{ status: "Completed", executor: "bob" }`. -/
def bodyCompleted : RawStatusBody := ⟨.str "Completed", .str "bob", .absent⟩

/-- The store `scenStore` after the transition into `In Progress` at instant 10. -/
def scenStep1 : Store := (updateStatus 10 1 bodyInProgress none scenStore).1

/-- The store `scenStep1` after the transition into `Completed` at instant 20. -/
def scenStep2 : Store := (updateStatus 20 1 bodyCompleted none scenStep1).1

/-! ### List helper lemmas -/

theorem find?_beq_none {α : Type} (f : α → Nat) (n : Nat) :
    ∀ l : List α, (∀ x ∈ l, f x < n) → l.find? (fun x => f x == n) = none := by
  intro l
  induction l with
  | nil => intro _; rfl
  | cons a t ih =>
    intro h
    have ha : (f a == n) = false := by
      simp only [beq_eq_false_iff_ne, ne_eq]
      exact Nat.ne_of_lt (h a (List.mem_cons_self a t))
    simp only [List.find?, ha]
    exact ih fun x hx => h x (List.mem_cons_of_mem a hx)

theorem filter_beq_nil {α : Type} (f : α → Nat) (n : Nat) :
    ∀ l : List α, (∀ x ∈ l, f x < n) → l.filter (fun x => f x == n) = [] := by
  intro l
  induction l with
  | nil => intro _; rfl
  | cons a t ih =>
    intro h
    have ha : (f a == n) = false := by
      simp only [beq_eq_false_iff_ne, ne_eq]
      exact Nat.ne_of_lt (h a (List.mem_cons_self a t))
    simp only [List.filter, ha]
    exact ih fun x hx => h x (List.mem_cons_of_mem a hx)

theorem find?_append_none {α : Type} (p : α → Bool) :
    ∀ l l' : List α, l.find? p = none → (l ++ l').find? p = l'.find? p := by
  intro l
  induction l with
  | nil => intro l' _; rfl
  | cons a t ih =>
    intro l' h
    simp only [List.find?] at h
    cases hp : p a with
    | true => rw [hp] at h; exact absurd h (by simp)
    | false =>
      rw [hp] at h
      simp only [List.cons_append, List.find?, hp]
      exact ih l' h

theorem filter_map_all {α β : Type} (g : α → β) (p : β → Bool)
    (h : ∀ x, p (g x) = true) : ∀ l : List α, (l.map g).filter p = l.map g := by
  intro l
  induction l with
  | nil => rfl
  | cons a t ih => simp only [List.map, List.filter, h a, ih]

theorem find?_map_pres {α : Type} (g : α → α) (p : α → Bool)
    (h : ∀ x, p (g x) = p x) : ∀ l : List α, (l.map g).find? p = (l.find? p).map g := by
  intro l
  induction l with
  | nil => rfl
  | cons a t ih =>
    simp only [List.map, List.find?, h a]
    cases hp : p a with
    | true => rfl
    | false => exact ih

theorem applyRowUpdate_id (row : RequestRow) (u : StatusUpdateData) (now : Nat) :
    (applyRowUpdate row u now).id = row.id := rfl

theorem applyRowUpdate_startedAt_some (row : RequestRow) (u : StatusUpdateData)
    (now t : Nat) (h : row.startedAt = some t) :
    (applyRowUpdate row u now).startedAt = some t := by
  simp only [applyRowUpdate, h]
  split <;> rfl

theorem applyRowUpdate_completedAt_some (row : RequestRow) (u : StatusUpdateData)
    (now t : Nat) (h : row.completedAt = some t) :
    (applyRowUpdate row u now).completedAt = some t := by
  simp only [applyRowUpdate, h]
  split <;> rfl

theorem updateRow_cond_id (id : Nat) (u : StatusUpdateData) (now : Nat) (x : RequestRow) :
    (if x.id == id then applyRowUpdate x u now else x).id = x.id := by
  split
  · exact applyRowUpdate_id x u now
  · rfl

/-- The lookup of any id through `updateStatus` is the lookup before it,
with the row update applied when the row update applies. -/
theorem updateStatus_requestById (now id : Nat) (b : RawStatusBody)
    (u : StatusUpdateData) (row : RequestRow) (s : Store) (j : Nat)
    (hb : requestStatusUpdateSchema b = .ok u) (hr : s.requestById id = some row) :
    (updateStatus now id b none s).1.requestById j =
      (s.requestById j).map (fun r => if r.id == id then applyRowUpdate r u now else r) := by
  have hr' : List.find? (fun r => r.id == id) s.requests = some row := hr
  simp only [updateStatus, hb, Store.requestById, hr']
  exact find?_map_pres _ _ (fun x => by rw [updateRow_cond_id]) s.requests

/-- One status update, on any id and with any outcome, never clears or
changes an already-set `started_at`. -/
theorem updateStatus_keeps_startedAt (now uid : Nat) (b : RawStatusBody)
    (fault : Option String) (s : Store) (id t : Nat)
    (h : (s.requestById id).map RequestRow.startedAt = some (some t)) :
    ((updateStatus now uid b fault s).1.requestById id).map RequestRow.startedAt
      = some (some t) := by
  cases hb : requestStatusUpdateSchema b with
  | error e => simpa only [updateStatus, hb] using h
  | ok u =>
    cases hr : s.requestById uid with
    | none => simpa only [updateStatus, hb, hr] using h
    | some row =>
      cases fault with
      | some m => simpa only [updateStatus, hb, hr] using h
      | none =>
        rw [updateStatus_requestById now uid b u row s id hb hr]
        cases hj : s.requestById id with
        | none => rw [hj] at h; exact absurd h (by simp)
        | some r =>
          rw [hj] at h
          simp only [Option.map_some'] at h ⊢
          have hrt : r.startedAt = some t := by exact_mod_cast Option.some.inj h
          split
          · rw [applyRowUpdate_startedAt_some r u now t hrt]
          · rw [hrt]

/-- One status update never clears or changes an already-set
`completed_at`. -/
theorem updateStatus_keeps_completedAt (now uid : Nat) (b : RawStatusBody)
    (fault : Option String) (s : Store) (id t : Nat)
    (h : (s.requestById id).map RequestRow.completedAt = some (some t)) :
    ((updateStatus now uid b fault s).1.requestById id).map RequestRow.completedAt
      = some (some t) := by
  cases hb : requestStatusUpdateSchema b with
  | error e => simpa only [updateStatus, hb] using h
  | ok u =>
    cases hr : s.requestById uid with
    | none => simpa only [updateStatus, hb, hr] using h
    | some row =>
      cases fault with
      | some m => simpa only [updateStatus, hb, hr] using h
      | none =>
        rw [updateStatus_requestById now uid b u row s id hb hr]
        cases hj : s.requestById id with
        | none => rw [hj] at h; exact absurd h (by simp)
        | some r =>
          rw [hj] at h
          simp only [Option.map_some'] at h ⊢
          have hrt : r.completedAt = some t := by exact_mod_cast Option.some.inj h
          split
          · rw [applyRowUpdate_completedAt_some r u now t hrt]
          · rw [hrt]

/-- Folding a sequence of status updates over the store. -/
def runUpdates (upds : List (Nat × Nat × RawStatusBody × Option String))
    (s : Store) : Store :=
  upds.foldl (fun st x => (updateStatus x.1 x.2.1 x.2.2.1 x.2.2.2 st).1) s

theorem runUpdates_keeps_startedAt (id t : Nat) :
    ∀ (upds : List (Nat × Nat × RawStatusBody × Option String)) (s : Store),
      (s.requestById id).map RequestRow.startedAt = some (some t) →
      ((runUpdates upds s).requestById id).map RequestRow.startedAt = some (some t) := by
  intro upds
  induction upds with
  | nil => intro s h; exact h
  | cons x xs ih =>
    intro s h
    exact ih _ (updateStatus_keeps_startedAt x.1 x.2.1 x.2.2.1 x.2.2.2 s id t h)

theorem runUpdates_keeps_completedAt (id t : Nat) :
    ∀ (upds : List (Nat × Nat × RawStatusBody × Option String)) (s : Store),
      (s.requestById id).map RequestRow.completedAt = some (some t) →
      ((runUpdates upds s).requestById id).map RequestRow.completedAt = some (some t) := by
  intro upds
  induction upds with
  | nil => intro s h; exact h
  | cons x xs ih =>
    intro s h
    exact ih _ (updateStatus_keeps_completedAt x.1 x.2.1 x.2.2.1 x.2.2.2 s id t h)

/-! ### The claims -/

/-- C3: `started_at` is set exactly on the first transition into
`In Progress` and is never changed afterwards, by any sequence of further
status updates (on this or any other id, transitions into `In Progress`
included); `completed_at` obeys the same once-only policy for
`Completed`. -/
theorem status_timestamps_once (s : Store) (id : Nat) :
    (∀ (t : Nat) (upds : List (Nat × Nat × RawStatusBody × Option String)),
       (s.requestById id).map RequestRow.startedAt = some (some t) →
       ((runUpdates upds s).requestById id).map RequestRow.startedAt = some (some t)) ∧
    (∀ (t : Nat) (upds : List (Nat × Nat × RawStatusBody × Option String)),
       (s.requestById id).map RequestRow.completedAt = some (some t) →
       ((runUpdates upds s).requestById id).map RequestRow.completedAt = some (some t)) ∧
    (∀ (now : Nat) (b : RawStatusBody) (u : StatusUpdateData) (row : RequestRow),
       requestStatusUpdateSchema b = .ok u → u.status = .inProgress →
       s.requestById id = some row → row.startedAt = none →
       ((updateStatus now id b none s).1.requestById id).map RequestRow.startedAt
         = some (some now)) ∧
    (∀ (now : Nat) (b : RawStatusBody) (u : StatusUpdateData) (row : RequestRow),
       requestStatusUpdateSchema b = .ok u → u.status = .completed →
       s.requestById id = some row → row.completedAt = none →
       ((updateStatus now id b none s).1.requestById id).map RequestRow.completedAt
         = some (some now)) := by
  refine ⟨?_, ?_, ?_, ?_⟩
  · intro t upds h
    exact runUpdates_keeps_startedAt id t upds s h
  · intro t upds h
    exact runUpdates_keeps_completedAt id t upds s h
  · intro now b u row hb hst hr h0
    rw [updateStatus_requestById now id b u row s id hb hr, hr]
    have hr2 : List.find? (fun r : RequestRow => r.id == id) s.requests = some row := hr
    have hid0 := List.find?_some hr2
    have hid : (row.id == id) = true := hid0
    simp only [Option.map_some', hid, if_true]
    rw [show (applyRowUpdate row u now).startedAt
          = if u.status = Status.inProgress then some (row.startedAt.getD now)
            else row.startedAt from rfl]
    rw [if_pos hst, h0]
    rfl
  · intro now b u row hb hst hr h0
    rw [updateStatus_requestById now id b u row s id hb hr, hr]
    have hr2 : List.find? (fun r : RequestRow => r.id == id) s.requests = some row := hr
    have hid0 := List.find?_some hr2
    have hid : (row.id == id) = true := hid0
    simp only [Option.map_some', hid, if_true]
    rw [show (applyRowUpdate row u now).completedAt
          = if u.status = Status.completed then some (row.completedAt.getD now)
            else row.completedAt from rfl]
    rw [if_pos hst, h0]
    rfl

/-- Witness for C3: in the scenario store, entering `In Progress` at
instant 10 sets `started_at := 10`, and a repeated `In Progress` entry at
instant 20 leaves it at 10. -/
theorem status_timestamps_once_witness :
    (((updateStatus 10 1 bodyInProgress none scenStore).1.requestById 1).map
        RequestRow.startedAt = some (some 10)) ∧
    (((runUpdates [(20, 1, bodyInProgress, none)] scenStep1).requestById 1).map
        RequestRow.startedAt = some (some 10)) :=
  ⟨(status_timestamps_once scenStore 1).2.2.1 10 bodyInProgress
      ⟨.inProgress, some (some "bob"), none⟩ scenRow (by decide) (by decide)
      (by decide) (by decide),
   (status_timestamps_once scenStep1 1).1 10 [(20, 1, bodyInProgress, none)]
      (by decide)⟩

/-- C4: a status-update call on an identifier absent from the store answers
the distinct not-found outcome (for a body that passes validation) and in
every case leaves the store untouched: no request row updated, no history
row inserted. -/
theorem status_unknown_id_not_found (now id : Nat) (b : RawStatusBody)
    (fault : Option String) (s : Store) :
    (∀ u, requestStatusUpdateSchema b = .ok u → s.requestById id = none →
       updateStatus now id b fault s = (s, .notFound)) ∧
    (s.requestById id = none → (updateStatus now id b fault s).1 = s) := by
  constructor
  · intro u hb hr
    simp only [updateStatus, hb, hr]
  · intro hr
    cases hb : requestStatusUpdateSchema b with
    | error e => simp only [updateStatus, hb]
    | ok u => simp only [updateStatus, hb, hr]

/-- Witness for C4 at id 5, absent from the scenario store. -/
theorem status_unknown_id_not_found_witness :
    updateStatus 10 5 bodyInProgress none scenStore = (scenStore, .notFound) :=
  (status_unknown_id_not_found 10 5 bodyInProgress none scenStore).1
    ⟨.inProgress, some (some "bob"), none⟩ (by decide) (by decide)

/-- C5: every successful status update appends exactly one history row,
whose old status is the status read at the start of the same transactional
unit and whose new status is the requested one (with executor and note),
committed together with the row update — a fault inside the unit leaves
both halves invisible; hence the scenario New → In Progress → Completed
produces exactly the two entries (New, In Progress), (In Progress,
Completed), in order. -/
theorem status_history_appended (now id : Nat) (b : RawStatusBody)
    (fault : Option String) (s : Store) :
    (∀ u row, requestStatusUpdateSchema b = .ok u → s.requestById id = some row →
       (fault = none →
          (updateStatus now id b fault s).1.history =
            s.history ++ [⟨id, some row.status, u.status, flat u.executor, flat u.note⟩] ∧
          (updateStatus now id b fault s).2 = .ok) ∧
       (∀ m, fault = some m → (updateStatus now id b fault s).1 = s)) ∧
    scenStep2.history =
      [⟨1, some .new, .inProgress, some "bob", none⟩,
       ⟨1, some .inProgress, .completed, some "bob", none⟩] := by
  constructor
  · intro u row hb hr
    constructor
    · intro hf
      subst hf
      exact ⟨by simp only [updateStatus, hb, hr], by simp only [updateStatus, hb, hr]⟩
    · intro m hf
      subst hf
      simp only [updateStatus, hb, hr]
  · decide

/-- Witness for C5: the single-update half applied to the scenario store's
first transition. -/
theorem status_history_appended_witness :
    (updateStatus 10 1 bodyInProgress none scenStore).1.history =
      [⟨1, some .new, .inProgress, some "bob", none⟩] ∧
    (updateStatus 10 1 bodyInProgress none scenStore).2 = .ok :=
  ((status_history_appended 10 1 bodyInProgress none scenStore).1
      ⟨.inProgress, some (some "bob"), none⟩ scenRow (by decide) (by decide)).1 rfl

/-- C9: a status update mutates only the workflow columns of the target
row — `status` and `updated_at` always; `executor` only when the body
carried the key; `started_at` only on entry into `In Progress`;
`completed_at` only on entry into `Completed`; `issue_note` only on entry
into `Issue` (overwritten with the supplied note or null) — and leaves
every other request column, every other request row, and all line-item
rows untouched. -/
theorem status_update_frame :
    (∀ (row : RequestRow) (u : StatusUpdateData) (now : Nat),
       (applyRowUpdate row u now).id = row.id ∧
       (applyRowUpdate row u now).username = row.username ∧
       (applyRowUpdate row u now).requestType = row.requestType ∧
       (applyRowUpdate row u now).taskPriority = row.taskPriority ∧
       (applyRowUpdate row u now).dateOfRequest = row.dateOfRequest ∧
       (applyRowUpdate row u now).facilityLocation = row.facilityLocation ∧
       (applyRowUpdate row u now).receiverName = row.receiverName ∧
       (applyRowUpdate row u now).qawrNumber = row.qawrNumber ∧
       (applyRowUpdate row u now).jiraLink = row.jiraLink ∧
       (applyRowUpdate row u now).lotLocation = row.lotLocation ∧
       (applyRowUpdate row u now).attentionTo = row.attentionTo ∧
       (applyRowUpdate row u now).returnable = row.returnable ∧
       (applyRowUpdate row u now).domesticInternational = row.domesticInternational ∧
       (applyRowUpdate row u now).shippingAddress = row.shippingAddress ∧
       (applyRowUpdate row u now).samplingType = row.samplingType ∧
       (applyRowUpdate row u now).qrDate = row.qrDate ∧
       (applyRowUpdate row u now).projectName = row.projectName ∧
       (applyRowUpdate row u now).createdAt = row.createdAt ∧
       (applyRowUpdate row u now).status = u.status ∧
       (applyRowUpdate row u now).updatedAt = now ∧
       (u.executor = none → (applyRowUpdate row u now).executor = row.executor) ∧
       (∀ v, u.executor = some v → (applyRowUpdate row u now).executor = v) ∧
       (u.status ≠ .inProgress → (applyRowUpdate row u now).startedAt = row.startedAt) ∧
       (u.status = .inProgress →
          (applyRowUpdate row u now).startedAt = some (row.startedAt.getD now)) ∧
       (u.status ≠ .completed → (applyRowUpdate row u now).completedAt = row.completedAt) ∧
       (u.status = .completed →
          (applyRowUpdate row u now).completedAt = some (row.completedAt.getD now)) ∧
       (u.status ≠ .issue → (applyRowUpdate row u now).issueNote = row.issueNote) ∧
       (u.status = .issue → (applyRowUpdate row u now).issueNote = flat u.note)) ∧
    (∀ (now id : Nat) (b : RawStatusBody) (fault : Option String) (s : Store),
       (updateStatus now id b fault s).1.lots = s.lots ∧
       (updateStatus now id b fault s).1.samplingLots = s.samplingLots) ∧
    (∀ (now id : Nat) (b : RawStatusBody) (fault : Option String) (s : Store) (j : Nat),
       j ≠ id → (updateStatus now id b fault s).1.requestById j = s.requestById j) := by
  refine ⟨?_, ?_, ?_⟩
  · intro row u now
    refine ⟨rfl, rfl, rfl, rfl, rfl, rfl, rfl, rfl, rfl, rfl, rfl, rfl, rfl, rfl, rfl,
            rfl, rfl, rfl, rfl, rfl, ?_, ?_, ?_, ?_, ?_, ?_, ?_, ?_⟩
    · intro h
      simp [applyRowUpdate, h]
    · intro v h
      simp [applyRowUpdate, h]
    · intro h
      simp [applyRowUpdate, h]
    · intro h
      simp [applyRowUpdate, h]
    · intro h
      simp [applyRowUpdate, h]
    · intro h
      simp [applyRowUpdate, h]
    · intro h
      simp [applyRowUpdate, h]
    · intro h
      simp [applyRowUpdate, h]
  · intro now id b fault s
    cases hb : requestStatusUpdateSchema b with
    | error e => exact ⟨by simp only [updateStatus, hb], by simp only [updateStatus, hb]⟩
    | ok u =>
      cases hr : s.requestById id with
      | none => exact ⟨by simp only [updateStatus, hb, hr], by simp only [updateStatus, hb, hr]⟩
      | some row =>
        cases fault with
        | some m => exact ⟨by simp only [updateStatus, hb, hr], by simp only [updateStatus, hb, hr]⟩
        | none => exact ⟨by simp only [updateStatus, hb, hr], by simp only [updateStatus, hb, hr]⟩
  · intro now id b fault s j hj
    cases hb : requestStatusUpdateSchema b with
    | error e => simp only [updateStatus, hb]
    | ok u =>
      cases hr : s.requestById id with
      | none => simp only [updateStatus, hb, hr]
      | some row =>
        cases fault with
        | some m => simp only [updateStatus, hb, hr]
        | none =>
          rw [updateStatus_requestById now id b u row s j hb hr]
          cases hf : s.requestById j with
          | none => rfl
          | some r =>
            have hf2 : List.find? (fun x : RequestRow => x.id == j) s.requests = some r := hf
            have hrj0 := List.find?_some hf2
            have hrj : (r.id == j) = true := hrj0
            have hrid : r.id = j := by simpa using hrj
            have hne : (r.id == id) = false := by
              simp only [beq_eq_false_iff_ne, ne_eq, hrid]
              exact hj
            simp [hne]
            exact fun hc => absurd (hrid.symm.trans hc) hj

/-- Witness for C9: updating request 1 leaves the lookup of id 2 and the
line-item tables unchanged. -/
theorem status_update_frame_witness :
    (updateStatus 10 1 bodyInProgress none scenStore).1.requestById 2 =
      scenStore.requestById 2 ∧
    (updateStatus 10 1 bodyInProgress none scenStore).1.lots = scenStore.lots :=
  ⟨status_update_frame.2.2 10 1 bodyInProgress none scenStore 2 (by decide),
   (status_update_frame.2.1 10 1 bodyInProgress none scenStore).1⟩

theorem qrDateInRange_lt (clock d : JsDate) (h : d.day < clock.day) :
    qrDateInRange clock d = false := by
  have h2 : d.day * 86400000 < clock.day * 86400000 :=
    mul_lt_mul_of_pos_right h (by norm_num)
  simp [qrDateInRange, JsDate.atMidnight, JsDate.toMillis]
  linarith

theorem qrDateInRange_sameDay (clock d : JsDate) (h : d.day = clock.day) :
    qrDateInRange clock d = true := by
  simp [qrDateInRange, JsDate.atMidnight, JsDate.toMillis, h]

/-- C8: the `qrDate` rule of the Sampling schema rejects any release date
on a calendar day strictly before the parse-time day and accepts any
release date on the same calendar day, whatever the time-of-day parts of
either date are; shown end-to-end on a full Sampling payload (`clockW` is
one hour past midnight, the rejected date one millisecond before that
midnight, the accepted one 50 ms after it). -/
theorem sampling_qr_date_day_boundary (clock d : JsDate) :
    (d.day < clock.day → zQrDate clock "qrDate" (.date d) = .error ["qrDate"]) ∧
    (d.day = clock.day → zQrDate clock "qrDate" (.date d) = .ok d) ∧
    requestSchema clockW { samplingPayloadW with qrDate := .date ⟨19999, 86399999⟩ }
      = .error ["qrDate"] ∧
    (requestSchema clockW { samplingPayloadW with qrDate := .date ⟨20000, 50⟩ }).isOk
      = true := by
  refine ⟨?_, ?_, by decide, by decide⟩
  · intro h
    simp [zQrDate, zCoerceDate, qrDateInRange_lt clock d h]
  · intro h
    simp [zQrDate, zCoerceDate, qrDateInRange_sameDay clock d h]

/-- Witness for C8: a day-earlier date with a late time-of-day is
rejected; a same-day date is accepted. -/
theorem sampling_qr_date_day_boundary_witness :
    zQrDate clockW "qrDate" (.date ⟨19999, 86399999⟩) = .error ["qrDate"] ∧
    zQrDate clockW "qrDate" (.date ⟨20000, 50⟩) = .ok ⟨20000, 50⟩ :=
  ⟨(sampling_qr_date_day_boundary clockW ⟨19999, 86399999⟩).1 (by decide),
   (sampling_qr_date_day_boundary clockW ⟨20000, 50⟩).2.1 (by decide)⟩

/-- C6 counterexample: a payload supplying the empty string for an
optional descriptive field (`facilityLocation`) passes validation —
`z.string().optional().nullable()` carries no non-empty rule — refuting
the claim that such a payload is rejected. -/
theorem optional_empty_string_accepted :
    requestSchema clockW (lotPayloadWith (.str "")) = .ok (lotDataW (some (some ""))) := by
  decide

/-- C6 (amended): an optional descriptive field must be absent, null, or a
string — any string, the empty string included — for validation to
succeed; non-string, non-null values fail; absent and null are stored as
NULL and a string is stored as given. -/
theorem optional_fields_any_string :
    (∀ path s, zOptNullString path (.str s) = .ok (some (some s))) ∧
    (∀ path, zOptNullString path .null = .ok (some none)) ∧
    (∀ path, zOptNullString path .absent = .ok none) ∧
    (∀ path n, zOptNullString path (.num n) = .error [path]) ∧
    (∀ path bl, zOptNullString path (.bool bl) = .error [path]) ∧
    (∀ s, requestSchema clockW (lotPayloadWith (.str s)) = .ok (lotDataW (some (some s)))) ∧
    requestSchema clockW (lotPayloadWith .null) = .ok (lotDataW (some none)) ∧
    requestSchema clockW (lotPayloadWith .absent) = .ok (lotDataW none) ∧
    (∀ fl id now', (mkRequestRow id (lotDataW fl) now').facilityLocation = flat fl) :=
  ⟨fun _ _ => rfl, fun _ => rfl, fun _ => rfl, fun _ _ => rfl, fun _ _ => rfl,
   fun _ => rfl, by decide, by decide, fun _ _ _ => rfl⟩

/-- C7 counterexample: the discriminated-union schemas used by the create
endpoint do not coerce numeric strings — the quantity "5" supplied as a
string fails validation in both a lot and a sampling lot, refuting the
claim that every quantity field accepts numeric-string input. -/
theorem quantity_string_rejected :
    requestSchema clockW { lotPayloadW with lots := some [⟨.str "L1", .str "5", .absent⟩] }
      = .error ["unitsQuantity"] ∧
    requestSchema clockW
      { samplingPayloadW with
        samplingLots := some [⟨.str "S1", .str "5", .str "HTOL", .str "125C", .str "TAG"⟩] }
      = .error ["unitQuantity"] :=
  ⟨by decide, by decide⟩

/-- C7 (amended): only the legacy `lotSchema` of `src/schema.ts`
(`z.coerce.number()`) coerces quantity input — numeric strings normalize
to integers, non-numeric strings fail — while the discriminated-union
`lotSchema` and `samplingLotSchema` accept only numeric input, rejecting
every string. -/
theorem quantity_coercion_by_schema :
    lotSchemaLegacy ⟨.str "L1", .str "5", .absent⟩ = .ok ⟨"L1", 5, none⟩ ∧
    lotSchemaLegacy ⟨.str "L1", .num 7, .absent⟩ = .ok ⟨"L1", 7, none⟩ ∧
    lotSchemaLegacy ⟨.str "L1", .str "abc", .absent⟩ = .error ["unitsQuantity"] ∧
    (∀ s, lotSchema ⟨.str "L1", .str s, .absent⟩ = .error ["unitsQuantity"]) ∧
    (∀ s, samplingLotSchema ⟨.str "S1", .str s, .str "HTOL", .str "125C", .str "TAG"⟩
       = .error ["unitQuantity"]) ∧
    lotSchema ⟨.str "L1", .num 7, .absent⟩ = .ok ⟨"L1", some (some 7), none⟩ ∧
    samplingLotSchema ⟨.str "S1", .num 3, .str "HTOL", .str "125C", .str "TAG"⟩
      = .ok ⟨"S1", 3, "HTOL", "125C", "TAG"⟩ :=
  ⟨by decide, by decide, by decide, fun _ => rfl, fun _ => rfl, by decide, by decide⟩

theorem faultAt_none (st : FaultStep) : faultAt none st = false := rfl

theorem mkRequestRow_id (n : Nat) (d : RequestData) (now : Nat) :
    (mkRequestRow n d now).id = n := rfl

theorem mkLotRow_requestId (n : Nat) (l : LotData) : (mkLotRow n l).requestId = n := rfl

theorem mkSamplingLotRow_requestId (n : Nat) (l : SamplingLotData) :
    (mkSamplingLotRow n l).requestId = n := rfl

/-- C10: every stored line item's lot identifier is the payload's lot
identifier stripped of leading and trailing whitespace
(`String(l.lotId).trim()`), for both the lot and the sampling-lot shape;
consequently a whitespace-only lot identifier — which passes the
non-empty-string validation rule — is stored as the empty string. -/
theorem lot_ids_stored_trimmed (clock : JsDate) (now : Nat) (p : RawPayload) (s : Store) :
    (∀ k b ls, requestSchema clock p = .ok (.lotsKind k b ls) →
       (createRequest clock now p none s).1.lots = s.lots ++ ls.map (mkLotRow s.nextId)) ∧
    (∀ b st qd pn sls, requestSchema clock p = .ok (.sampling b st qd pn sls) →
       (createRequest clock now p none s).1.samplingLots
         = s.samplingLots ++ sls.map (mkSamplingLotRow s.nextId)) ∧
    (∀ l, (mkLotRow s.nextId l).lotId = jsTrim l.lotId) ∧
    (∀ l, (mkSamplingLotRow s.nextId l).lotId = jsTrim l.lotId) ∧
    requestSchema clockW wsPayload = .ok wsData ∧
    (createRequest clockW 7 wsPayload none emptyStore).1.lots =
      [⟨1, "", some 2, none⟩] := by
  refine ⟨?_, ?_, fun _ => rfl, fun _ => rfl, by decide, by decide⟩
  · intro k b ls hp
    simp only [createRequest, hp, faultAt_none, if_neg Bool.false_ne_true]
    by_cases hl : 0 < ls.length
    · simp only [if_pos hl, faultAt_none, if_neg Bool.false_ne_true]
    · have hnil : ls = [] := List.length_eq_zero.mp (Nat.eq_zero_of_not_pos hl)
      subst hnil
      simp only [if_neg hl, faultAt_none, if_neg Bool.false_ne_true, List.map_nil,
        List.append_nil]
  · intro b st qd pn sls hp
    simp only [createRequest, hp, faultAt_none, if_neg Bool.false_ne_true]
    by_cases hl : 0 < sls.length
    · simp only [if_pos hl, faultAt_none, if_neg Bool.false_ne_true]
    · have hnil : sls = [] := List.length_eq_zero.mp (Nat.eq_zero_of_not_pos hl)
      subst hnil
      simp only [if_neg hl, faultAt_none, if_neg Bool.false_ne_true, List.map_nil,
        List.append_nil]

/-- Witness for C10: the fixture Lot Transfer create stores exactly its
one lot, built by `mkLotRow`. -/
theorem lot_ids_stored_trimmed_witness :
    (createRequest clockW 7 lotPayloadW none emptyStore).1.lots =
      emptyStore.lots ++
        [LotData.mk "L1" (some (some 5)) none].map (mkLotRow emptyStore.nextId) :=
  (lot_ids_stored_trimmed clockW 7 lotPayloadW emptyStore).1 .lotTransfer
    ⟨"alice", .p1, dateW, none, none, none, none, none, none, none, none, none⟩
    [⟨"L1", some (some 5), none⟩] (by decide)

/-- The `lots` children a complete create of a validated payload leaves
behind. -/
def expectedLotRows (id : Nat) : RequestData → List LotRow
  | .lotsKind _ _ ls => ls.map (mkLotRow id)
  | .sampling _ _ _ _ _ => []

/-- The `sampling_lots` children a complete create of a validated payload
leaves behind. -/
def expectedSamplingLotRows (id : Nat) : RequestData → List SamplingLotRow
  | .lotsKind _ _ _ => []
  | .sampling _ _ _ _ sls => sls.map (mkSamplingLotRow id)

/-- Every run of the create handler lands in one of three outcomes: a 400
with the snapshot untouched and an empty effect trace, a rollback
(`abortResult`), or a commit answering the fresh identifier. -/
theorem createRequest_shape (clock : JsDate) (now : Nat) (p : RawPayload)
    (fault : Option Fault) (s : Store) :
    (∃ issues, requestSchema clock p = .error issues ∧
       createRequest clock now p fault s = (s, .badRequest issues, [])) ∨
    createRequest clock now p fault s = abortResult s ∨
    (∃ s2 tr, createRequest clock now p fault s = (s2, .ok s.nextId, tr)) := by
  cases hp : requestSchema clock p with
  | error issues =>
    left
    exact ⟨issues, rfl, by simp only [createRequest, hp]⟩
  | ok d =>
    right
    cases hf1 : faultAt fault .insertRequests with
    | true => left; simp only [createRequest, hp, hf1, if_pos]
    | false =>
      cases d with
      | lotsKind k b ls =>
        by_cases hl : 0 < ls.length
        · cases hf2 : faultAt fault .insertLots with
          | true =>
            left
            simp only [createRequest, hp, hf1, Bool.false_eq_true, if_false, if_pos hl, hf2,
              if_pos]
          | false =>
            cases hf3 : faultAt fault .commit with
            | true =>
              left
              simp only [createRequest, hp, hf1, hf2, hf3, Bool.false_eq_true, if_false,
                if_pos hl, if_pos]
            | false =>
              right
              simp only [createRequest, hp, hf1, hf2, hf3, Bool.false_eq_true, if_false,
                if_pos hl]
              exact ⟨_, _, rfl⟩
        · cases hf3 : faultAt fault .commit with
          | true =>
            left
            simp only [createRequest, hp, hf1, hf3, Bool.false_eq_true, if_false,
              if_neg hl, if_pos]
          | false =>
            right
            simp only [createRequest, hp, hf1, hf3, Bool.false_eq_true, if_false, if_neg hl]
            exact ⟨_, _, rfl⟩
      | sampling b st qd pn sls =>
        by_cases hl : 0 < sls.length
        · cases hf2 : faultAt fault .insertSamplingLots with
          | true =>
            left
            simp only [createRequest, hp, hf1, Bool.false_eq_true, if_false, if_pos hl, hf2,
              if_pos]
          | false =>
            cases hf3 : faultAt fault .commit with
            | true =>
              left
              simp only [createRequest, hp, hf1, hf2, hf3, Bool.false_eq_true, if_false,
                if_pos hl, if_pos]
            | false =>
              right
              simp only [createRequest, hp, hf1, hf2, hf3, Bool.false_eq_true, if_false,
                if_pos hl]
              exact ⟨_, _, rfl⟩
        · cases hf3 : faultAt fault .commit with
          | true =>
            left
            simp only [createRequest, hp, hf1, hf3, Bool.false_eq_true, if_false,
              if_neg hl, if_pos]
          | false =>
            right
            simp only [createRequest, hp, hf1, hf3, Bool.false_eq_true, if_false, if_neg hl]
            exact ⟨_, _, rfl⟩

/-- C2: a payload failing validation is answered 400 carrying the full
issue list, with an empty effect trace (no connection, no transaction)
and the store untouched; every 500 answer of the create endpoint carries
the fixed generic message — never the underlying store error — and leaves
the store rolled back to its snapshot; a fault at the parent insert always
takes that rollback path. -/
theorem createRequest_error_paths (clock : JsDate) (now : Nat) (p : RawPayload)
    (fault : Option Fault) (s : Store) :
    (∀ issues, requestSchema clock p = .error issues →
       createRequest clock now p fault s = (s, .badRequest issues, [])) ∧
    (∀ m, (createRequest clock now p fault s).2.1 = .serverError m →
       m = "Failed to save request" ∧ (createRequest clock now p fault s).1 = s) ∧
    (∀ f d, fault = some f → f.step = .insertRequests → requestSchema clock p = .ok d →
       createRequest clock now p fault s = abortResult s) := by
  refine ⟨?_, ?_, ?_⟩
  · intro issues hp
    simp only [createRequest, hp]
  · intro m hm
    rcases createRequest_shape clock now p fault s with ⟨issues, _, he⟩ | he | ⟨s2, tr, he⟩
    · rw [he] at hm
      exact absurd hm (by simp)
    · rw [he] at hm ⊢
      simp only [abortResult] at hm ⊢
      exact ⟨(CreateResp.serverError.inj hm).symm, trivial⟩
    · rw [he] at hm
      exact absurd hm (by simp)
  · intro f d hf hstep hp
    subst hf
    have hft : faultAt (some f) .insertRequests = true := by
      simp [faultAt, hstep]
    simp only [createRequest, hp, hft, if_pos]

/-- Witness for C2: an invalid discriminator answers 400 with no effects;
a fault at the parent insert (whose store error text is never echoed)
answers the generic rollback result. -/
theorem createRequest_error_paths_witness :
    createRequest clockW 7 { lotPayloadW with requestType := .num 3 } none emptyStore
      = (emptyStore, .badRequest ["requestType"], []) ∧
    createRequest clockW 7 lotPayloadW (some ⟨.insertRequests, "ER_DUP_ENTRY"⟩) emptyStore
      = abortResult emptyStore :=
  ⟨(createRequest_error_paths clockW 7 { lotPayloadW with requestType := .num 3 }
      none emptyStore).1 ["requestType"] (by decide),
   (createRequest_error_paths clockW 7 lotPayloadW
      (some ⟨.insertRequests, "ER_DUP_ENTRY"⟩) emptyStore).2.2
      ⟨.insertRequests, "ER_DUP_ENTRY"⟩ (lotDataW none) rfl rfl (by decide)⟩

/-- C1: the create endpoint is all-or-nothing: whatever fault is injected
at any step of the transactional unit (a child insert after the parent
insert included), a reader of the resulting store sees either no rows at
all under the new request identifier or the complete parent row together
with the full set of children of the matching shape. -/
theorem createRequest_atomic (clock : JsDate) (now : Nat) (p : RawPayload)
    (fault : Option Fault) (s : Store) (h : s.Fresh) :
    ((createRequest clock now p fault s).1.requestById s.nextId = none ∧
     (createRequest clock now p fault s).1.lotsFor s.nextId = [] ∧
     (createRequest clock now p fault s).1.samplingLotsFor s.nextId = []) ∨
    (∃ d, requestSchema clock p = .ok d ∧
       (createRequest clock now p fault s).1.requestById s.nextId
         = some (mkRequestRow s.nextId d now) ∧
       (createRequest clock now p fault s).1.lotsFor s.nextId
         = expectedLotRows s.nextId d ∧
       (createRequest clock now p fault s).1.samplingLotsFor s.nextId
         = expectedSamplingLotRows s.nextId d) := by
  obtain ⟨h1, h2, h3⟩ := h
  have hreq : s.requests.find? (fun r => r.id == s.nextId) = none :=
    find?_beq_none RequestRow.id s.nextId s.requests h1
  have hlots : s.lots.filter (fun l => l.requestId == s.nextId) = [] :=
    filter_beq_nil LotRow.requestId s.nextId s.lots h2
  have hsl : s.samplingLots.filter (fun l => l.requestId == s.nextId) = [] :=
    filter_beq_nil SamplingLotRow.requestId s.nextId s.samplingLots h3
  have hleft : s.requestById s.nextId = none ∧ s.lotsFor s.nextId = [] ∧
      s.samplingLotsFor s.nextId = [] := ⟨hreq, hlots, hsl⟩
  cases hp : requestSchema clock p with
  | error issues =>
    left
    simp only [createRequest, hp]
    exact hleft
  | ok d =>
    cases hf1 : faultAt fault .insertRequests with
    | true =>
      left
      simp only [createRequest, hp, hf1, if_pos, abortResult]
      exact hleft
    | false =>
      cases d with
      | lotsKind k b ls =>
        by_cases hl : 0 < ls.length
        · cases hf2 : faultAt fault .insertLots with
          | true =>
            left
            simp only [createRequest, hp, hf1, Bool.false_eq_true, if_false, if_pos hl,
              hf2, if_pos, abortResult]
            exact hleft
          | false =>
            cases hf3 : faultAt fault .commit with
            | true =>
              left
              simp only [createRequest, hp, hf1, hf2, hf3, Bool.false_eq_true, if_false,
                if_pos hl, if_pos, abortResult]
              exact hleft
            | false =>
              right
              refine ⟨.lotsKind k b ls, rfl, ?_, ?_, ?_⟩
              · simp only [createRequest, hp, hf1, hf2, hf3, Bool.false_eq_true, if_false,
                  if_pos hl, Store.requestById]
                rw [find?_append_none _ s.requests _ hreq]
                simp [List.find?, mkRequestRow_id]
              · simp only [createRequest, hp, hf1, hf2, hf3, Bool.false_eq_true, if_false,
                  if_pos hl, Store.lotsFor]
                rw [List.filter_append, hlots,
                  filter_map_all (mkLotRow s.nextId) _
                    (fun x => by simp [mkLotRow_requestId]) ls]
                simp [expectedLotRows]
              · simp only [createRequest, hp, hf1, hf2, hf3, Bool.false_eq_true, if_false,
                  if_pos hl, Store.samplingLotsFor, expectedSamplingLotRows]
                exact hsl
        · have hnil : ls = [] := List.length_eq_zero.mp (Nat.eq_zero_of_not_pos hl)
          subst hnil
          cases hf3 : faultAt fault .commit with
          | true =>
            left
            simp only [createRequest, hp, hf1, hf3, Bool.false_eq_true, if_false,
              if_neg hl, if_pos, abortResult]
            exact hleft
          | false =>
            right
            refine ⟨.lotsKind k b [], rfl, ?_, ?_, ?_⟩
            · simp only [createRequest, hp, hf1, hf3, Bool.false_eq_true, if_false,
                if_neg hl, Store.requestById]
              rw [find?_append_none _ s.requests _ hreq]
              simp [List.find?, mkRequestRow_id]
            · simp only [createRequest, hp, hf1, hf3, Bool.false_eq_true, if_false,
                if_neg hl, Store.lotsFor, expectedLotRows, List.map_nil]
              exact hlots
            · simp only [createRequest, hp, hf1, hf3, Bool.false_eq_true, if_false,
                if_neg hl, Store.samplingLotsFor, expectedSamplingLotRows]
              exact hsl
      | sampling b st qd pn sls =>
        by_cases hl : 0 < sls.length
        · cases hf2 : faultAt fault .insertSamplingLots with
          | true =>
            left
            simp only [createRequest, hp, hf1, Bool.false_eq_true, if_false, if_pos hl,
              hf2, if_pos, abortResult]
            exact hleft
          | false =>
            cases hf3 : faultAt fault .commit with
            | true =>
              left
              simp only [createRequest, hp, hf1, hf2, hf3, Bool.false_eq_true, if_false,
                if_pos hl, if_pos, abortResult]
              exact hleft
            | false =>
              right
              refine ⟨.sampling b st qd pn sls, rfl, ?_, ?_, ?_⟩
              · simp only [createRequest, hp, hf1, hf2, hf3, Bool.false_eq_true, if_false,
                  if_pos hl, Store.requestById]
                rw [find?_append_none _ s.requests _ hreq]
                simp [List.find?, mkRequestRow_id]
              · simp only [createRequest, hp, hf1, hf2, hf3, Bool.false_eq_true, if_false,
                  if_pos hl, Store.lotsFor, expectedLotRows]
                exact hlots
              · simp only [createRequest, hp, hf1, hf2, hf3, Bool.false_eq_true, if_false,
                  if_pos hl, Store.samplingLotsFor]
                rw [List.filter_append, hsl,
                  filter_map_all (mkSamplingLotRow s.nextId) _
                    (fun x => by simp [mkSamplingLotRow_requestId]) sls]
                simp [expectedSamplingLotRows]
        · have hnil : sls = [] := List.length_eq_zero.mp (Nat.eq_zero_of_not_pos hl)
          subst hnil
          cases hf3 : faultAt fault .commit with
          | true =>
            left
            simp only [createRequest, hp, hf1, hf3, Bool.false_eq_true, if_false,
              if_neg hl, if_pos, abortResult]
            exact hleft
          | false =>
            right
            refine ⟨.sampling b st qd pn [], rfl, ?_, ?_, ?_⟩
            · simp only [createRequest, hp, hf1, hf3, Bool.false_eq_true, if_false,
                if_neg hl, Store.requestById]
              rw [find?_append_none _ s.requests _ hreq]
              simp [List.find?, mkRequestRow_id]
            · simp only [createRequest, hp, hf1, hf3, Bool.false_eq_true, if_false,
                if_neg hl, Store.lotsFor, expectedLotRows]
              exact hlots
            · simp only [createRequest, hp, hf1, hf3, Bool.false_eq_true, if_false,
                if_neg hl, Store.samplingLotsFor, expectedSamplingLotRows, List.map_nil]
              exact hsl

/-- Witness for C1 at the empty store, a valid payload, and a fault at the
child lot insert, after the parent insert has succeeded. -/
theorem createRequest_atomic_witness :
    ((createRequest clockW 7 lotPayloadW (some ⟨.insertLots, "boom"⟩)
        emptyStore).1.requestById emptyStore.nextId = none ∧
     (createRequest clockW 7 lotPayloadW (some ⟨.insertLots, "boom"⟩)
        emptyStore).1.lotsFor emptyStore.nextId = [] ∧
     (createRequest clockW 7 lotPayloadW (some ⟨.insertLots, "boom"⟩)
        emptyStore).1.samplingLotsFor emptyStore.nextId = []) ∨
    (∃ d, requestSchema clockW lotPayloadW = .ok d ∧
       (createRequest clockW 7 lotPayloadW (some ⟨.insertLots, "boom"⟩)
          emptyStore).1.requestById emptyStore.nextId
         = some (mkRequestRow emptyStore.nextId d 7) ∧
       (createRequest clockW 7 lotPayloadW (some ⟨.insertLots, "boom"⟩)
          emptyStore).1.lotsFor emptyStore.nextId
         = expectedLotRows emptyStore.nextId d ∧
       (createRequest clockW 7 lotPayloadW (some ⟨.insertLots, "boom"⟩)
          emptyStore).1.samplingLotsFor emptyStore.nextId
         = expectedSamplingLotRows emptyStore.nextId d) :=
  createRequest_atomic clockW 7 lotPayloadW (some ⟨.insertLots, "boom"⟩) emptyStore
    (by decide)

end SWRC
